import Mathlib

/-!
Verification of `toil-lib` (UCSC CGL Toil helper library).

This file gives a shallow embedding, in Lean 4, of the parts of the
repository that the specification talks about:

* `src/toil_lib/tools/spark_tools.py`: `MasterAddress`,
  `_make_parameters`, `_format_time`, `_log_container_execution`,
  `call_conductor`;
* `src/toil_lib/tools/variant_callers.py`: the `run_*` variant-caller
  wrappers;
* the external content-addressed file store exercised by
  `src/toil_lib/test/test_urls.py` (its implementation, `toil_lib/urls.py`,
  is not part of the sources; it is modelled from the spec).

Python integers and time values are modelled as `Nat` / `Int`; Python
lists of strings as `List String`; `None`-able values as `Option`;
functions that can raise as `Except String` (the error carries the
message).  Side-effecting wrappers are modelled in a small state monad
that records a trace of the externally visible events (file-store reads
and writes, container invocations, log lines) and consults an oracle
(`World`) for the clock and for the success or failure of each container
invocation.
-/

namespace ToilLib

/-! ## spark_tools.py: constants and `MasterAddress` -/

def SPARK_MASTER_PORT : String := "7077"

def HDFS_MASTER_PORT : String := "8020"

/-- Embedding of `MasterAddress(str)`: the notional master address (the string value of
`self`) together with the auxiliary `actual` attribute.  In Python the
string value is `self`; here it is the field `address`. -/
structure MasterAddress where
  address : String
  actual : String
deriving DecidableEq, Repr

/-- Embedding of `MasterAddress.__init__`: `self.actual = self`, so a freshly built
`MasterAddress(master_ip)` has `address = master_ip` and
`actual = address`. -/
def MasterAddress.init (master_ip : String) : MasterAddress :=
  { address := master_ip, actual := master_ip }

/-- Embedding of `MasterAddress.docker_parameters`: if the notional address differs
from the actual one, add `--add-host=spark-master:<actual>` to the list
of "docker run" arguments (creating the list if it was `None`);
otherwise return the argument unchanged. -/
def MasterAddress.docker_parameters (m : MasterAddress)
    (docker_params : Option (List String)) : Option (List String) :=
  if m.address ≠ m.actual then
    let add_host_option := "--add-host=spark-master:" ++ m.actual
    match docker_params with
    | none => some [add_host_option]
    | some ps => some (ps ++ [add_host_option])
  else
    docker_params

/-! ## spark_tools.py: `_make_parameters` -/

/-- Modelled from the spec: `toil_lib.require` (the module
`toil_lib/__init__.py` is not among the sources) checks a condition and,
when it does not hold, fails with a configuration error carrying the
given message. -/
def require (cond : Bool) (msg : String) : Except String Unit :=
  if cond then Except.ok () else Except.error msg

/-- The error message of `_make_parameters`' configuration check. -/
def make_parameters_error_msg : String :=
  "Either the memory setting must be defined or you must provide Spark configuration parameters."

/-- The Spark configuration flags `_make_parameters` computes when
`memory` is supplied (lines 80-83 of spark_tools.py). -/
def spark_conf_parameters (master_ip : String) (memory : Nat) : List String :=
  ["--master", "spark://" ++ master_ip ++ ":" ++ SPARK_MASTER_PORT,
   "--conf", "spark.driver.memory=" ++ toString memory,
   "--conf", "spark.executor.memory=" ++ toString memory,
   "--conf", "spark.hadoop.fs.default.name=hdfs://" ++ master_ip ++ ":" ++ HDFS_MASTER_PORT]

/-- Embedding of `_make_parameters`: require that exactly one of `memory`,
`override_parameters` is supplied, then build
`[computed-or-override flags] ++ default_parameters ++ ["--"] ++ arguments`.
(The `none/none` fallback of the match is unreachable: the `require`
has already failed in that case.) -/
def make_parameters (master_ip : String) (default_parameters : List String)
    (memory : Option Nat) (arguments : List String)
    (override_parameters : Option (List String)) : Except String (List String) := do
  require ((override_parameters.isSome || memory.isSome) &&
           (override_parameters.isNone || memory.isNone))
    make_parameters_error_msg
  let parameters : List String :=
    match memory with
    | some m => spark_conf_parameters master_ip m
    | none =>
      match override_parameters with
      | some o => o
      | none => []
  pure (parameters ++ default_parameters ++ ["--"] ++ arguments)

/-! ## spark_tools.py: `_format_time` -/

/-- Embedding of `_format_time`: decomposes `end_time - start_time` into hours,
minutes and seconds, then formats it.  Note that the source interpolates
`elapsed_hours` into the seconds slot of the format string
(`% (elapsed_hours, elapsed_minutes, elapsed_hours)`, line 113);
`elapsed_seconds` is computed but never used.  The embedding reproduces
this faithfully.  Python's `int(x)` truncates toward zero, as does `Int`
division here. -/
def format_time (start_time end_time : Int) : String :=
  let elapsed_time := end_time - start_time
  let elapsed_hours := elapsed_time / 3600
  let elapsed_minutes := (elapsed_time - elapsed_hours * 3600) / 60
  let _elapsed_seconds := elapsed_time - (elapsed_hours * 3600 + elapsed_minutes * 60)
  toString elapsed_hours ++ "h " ++ toString elapsed_minutes ++ "m " ++
    toString elapsed_hours ++ "s"

/-- What the docstring of `_format_time` (and the spec) say it should
return: hours, minutes and the remaining whole seconds. -/
def format_time_spec (start_time end_time : Int) : String :=
  let elapsed_time := end_time - start_time
  let elapsed_hours := elapsed_time / 3600
  let elapsed_minutes := (elapsed_time - elapsed_hours * 3600) / 60
  let elapsed_seconds := elapsed_time - (elapsed_hours * 3600 + elapsed_minutes * 60)
  toString elapsed_hours ++ "h " ++ toString elapsed_minutes ++ "m " ++
    toString elapsed_seconds ++ "s"

/-! ## The effect model

The container-invocation wrappers read files from the global file
store, invoke containers, write files back and log.  We model them in a
state monad over `EffState`, which records a trace of the externally
visible events together with counters for the clock, the container
invocations and the allocated file handles.  A `World` oracle supplies
the value of each `time.time()` call and decides whether each container
invocation succeeds or raises (and with which error).  Local-filesystem
bookkeeping in the source (`os.path.exists`, `os.mkdir`, `open`) has no
externally visible effect and is not modelled. -/

/-- An opaque file-store handle (`FileStoreID` returned by
`writeGlobalFile`). -/
structure FileId where
  id : Nat
deriving DecidableEq, Repr

/-- Externally visible events of a wrapper execution. -/
inductive Event where
  /-- Event for `job.fileStore.readGlobalFile(file_store_id, path)` -/
  | read (file_store_id : String) (path : String)
  /-- Event for `dockerCall(job, tool=…, parameters=…, dockerParameters=…, outfile=…)` -/
  | docker (tool : String) (parameters : List String)
      (dockerParameters : Option (List String)) (outfile : Option String)
  /-- Event for `subprocess.check_call(cmd)` (native ADAM path) -/
  | proc (cmd : List String)
  /-- Event for `job.fileStore.writeGlobalFile(path)` returning `fid` -/
  | write (path : String) (fid : FileId)
  /-- Event for `_log_container_execution`: logs container, formatted runtime and
  parameters (the log line is modelled structurally, not as the exact
  `%`-formatted string) -/
  | containerLog (container : String) (runtime : String) (parameters : List String)
  /-- Event for `log_runtime`: logs a tool name and its formatted runtime -/
  | runtimeLog (tool : String) (runtime : String)
deriving DecidableEq, Repr

/-- The oracle for a run: the value returned by the `k`-th `time.time()`
call, whether the `k`-th container invocation raises (and the error it
raises), and likewise for the `k`-th `subprocess.check_call`. -/
structure World where
  clock : Nat → Int
  dockerErr : Nat → Option String
  procErr : Nat → Option String

/-- Mutable execution state: counters for time / container / subprocess
calls, the next fresh file handle, and the event trace. -/
structure EffState where
  timeCalls : Nat
  dockerCalls : Nat
  procCalls : Nat
  nextFileId : Nat
  events : List Event
deriving DecidableEq, Repr

def initState : EffState :=
  { timeCalls := 0, dockerCalls := 0, procCalls := 0, nextFileId := 0, events := [] }

/-- The wrapper monad: state plus Python-style exceptions.  The state
survives a raised exception (side effects that happened before the
raise remain visible in the trace). -/
def M (α : Type) : Type := EffState → EffState × Except String α

namespace M

def pure (a : α) : M α := fun s => (s, Except.ok a)

def bind (x : M α) (f : α → M β) : M β := fun s =>
  match x s with
  | (s', Except.ok a) => f a s'
  | (s', Except.error e) => (s', Except.error e)

/-- Run an `Except` computation (e.g. `_make_parameters`) inside `M`:
its exception propagates. -/
def ofExcept (x : Except String α) : M α := fun s => (s, x)

end M

instance monadM : Monad M where
  pure := M.pure
  bind := M.bind

/-- Embedding of `time.time()`: returns the oracle's clock value for the current
call index. -/
def timeNow (w : World) : M Int := fun s =>
  ({ s with timeCalls := s.timeCalls + 1 }, Except.ok (w.clock s.timeCalls))

/-- Embedding of `toil.lib.docker.dockerCall` (external container runtime): records
the invocation, then succeeds or raises as the oracle dictates. -/
def dockerCall (w : World) (tool : String) (parameters : List String)
    (dockerParameters : Option (List String)) (outfile : Option String) : M Unit := fun s =>
  let s' := { s with dockerCalls := s.dockerCalls + 1,
                     events := s.events ++ [Event.docker tool parameters dockerParameters outfile] }
  match w.dockerErr s.dockerCalls with
  | some e => (s', Except.error e)
  | none => (s', Except.ok ())

/-- Embedding of `subprocess.check_call` (external process runtime). -/
def checkCall (w : World) (cmd : List String) : M Unit := fun s =>
  let s' := { s with procCalls := s.procCalls + 1,
                     events := s.events ++ [Event.proc cmd] }
  match w.procErr s.procCalls with
  | some e => (s', Except.error e)
  | none => (s', Except.ok ())

/-- Embedding of `job.fileStore.getLocalTempDir()`: a scratch directory. -/
def getLocalTempDir : M String := fun s => (s, Except.ok "/tmp/work")

/-- Embedding of `job.fileStore.readGlobalFile(fid, path)`: fetch a blob from the
global file store into the local directory. -/
def readGlobalFile (file_store_id : String) (path : String) : M Unit := fun s =>
  ({ s with events := s.events ++ [Event.read file_store_id path] }, Except.ok ())

/-- Embedding of `job.fileStore.writeGlobalFile(path)`: push a local file to the
global file store, returning a fresh opaque handle. -/
def writeGlobalFile (path : String) : M FileId := fun s =>
  ({ s with nextFileId := s.nextFileId + 1,
            events := s.events ++ [Event.write path ⟨s.nextFileId⟩] },
   Except.ok ⟨s.nextFileId⟩)

/-- Embedding of `_log_container_execution`: formats the runtime with `_format_time`
and logs container name, runtime and parameters to the leader. -/
def log_container_execution (container : String) (start_time end_time : Int)
    (parameters : List String) : M Unit := fun s =>
  ({ s with events := s.events ++
      [Event.containerLog container (format_time start_time end_time) parameters] },
   Except.ok ())

/-- Modelled from the spec: `toil_lib.tools.log_runtime`
(`toil_lib/tools/__init__.py` is not among the sources) "formats
elapsed time and emits a log line". -/
def log_runtime (start_time end_time : Int) (tool : String) : M Unit := fun s =>
  ({ s with events := s.events ++ [Event.runtimeLog tool (format_time start_time end_time)] },
   Except.ok ())

/-- Read a list of `(file_store_id, file_name)` pairs into `work_dir`
(the `for file_store_id, name in zip(file_ids, file_names)` loops). -/
def readInputs (work_dir : String) (files : List (String × String)) : M Unit :=
  files.forM (fun p => readGlobalFile p.1 (work_dir ++ "/" ++ p.2))

/-! ## Python return values of the wrappers

A wrapper returns either a single `FileStoreID` or a tuple mixing
`FileStoreID`s and elapsed times. -/

inductive PyVal where
  | fid (f : FileId)
  | num (t : Int)
deriving DecidableEq, Repr

inductive Ret where
  | scalar (v : PyVal)
  | tuple (vs : List PyVal)
deriving DecidableEq, Repr

/-! ## spark_tools.py: `call_conductor`, `call_adam`, `call_avocado`,
`call_cannoli` -/

/-- Embedding of `call_conductor`: copy files between S3 and HDFS via the Conductor
container. -/
def call_conductor (w : World) (master_ip : MasterAddress) (src dst : String)
    (container : String) (memory : Option Nat)
    (override_parameters : Option (List String)) : M Unit := do
  let arguments := ["-C", src, dst]
  let docker_params := ["--log-driver", "none", "--net=host"]
  let parameters ← M.ofExcept
    (make_parameters master_ip.address [] memory arguments override_parameters)
  let start_time ← timeNow w
  dockerCall w container parameters (some docker_params) none
  let end_time ← timeNow w
  log_container_execution container start_time end_time parameters

/-- The `master` flag list shared by `call_adam` / `call_avocado`
(lines 204-209 / 276-281 of spark_tools.py). -/
def spark_master_args (run_local : Bool) (master_ip : MasterAddress) : List String :=
  if run_local then
    ["--master", "local[*]"]
  else
    ["--master", "spark://" ++ master_ip.address ++ ":" ++ SPARK_MASTER_PORT,
     "--conf", "spark.hadoop.fs.default.name=hdfs://" ++ master_ip.address ++ ":" ++ HDFS_MASTER_PORT]

/-- The `default_params` of `call_adam` (lines 211-226). -/
def adam_default_params (run_local : Bool) (master_ip : MasterAddress) : List String :=
  spark_master_args run_local master_ip ++
    ["--conf", "spark.driver.maxResultSize=0",
     "--conf", "spark.storage.memoryFraction=0.3",
     "--conf", "spark.storage.unrollFraction=0.1",
     "--conf", "spark.network.timeout=300s"]

/-- Embedding of `call_adam`: invoke the ADAM container (or, when a native ADAM path
is given, `bin/adam-submit` via `subprocess.check_call`). -/
def call_adam (w : World) (master_ip : MasterAddress) (arguments : List String)
    (container : String) (memory : Option Nat)
    (override_parameters : Option (List String)) (run_local : Bool)
    (native_adam_path : Option String) : M Unit := do
  let default_params := adam_default_params run_local master_ip
  match native_adam_path with
  | none => do
    let docker_params := ["--log-driver", "none", "--net=host"]
    let parameters ← M.ofExcept
      (make_parameters master_ip.address default_params memory arguments override_parameters)
    let start_time ← timeNow w
    dockerCall w container parameters (some docker_params) none
    let end_time ← timeNow w
    log_container_execution container start_time end_time parameters
  | some path =>
    checkCall w ([path ++ "/bin/adam-submit"] ++ default_params ++ arguments)

/-- The `default_params` of `call_avocado` (lines 283-287). -/
def avocado_default_params (run_local : Bool) (master_ip : MasterAddress) : List String :=
  spark_master_args run_local master_ip ++
    ["--conf", "spark.driver.maxResultSize=0",
     "--conf", "spark.kryoserializer.buffer.max=2047m"]

/-- Embedding of `call_avocado`: invoke the Avocado container. -/
def call_avocado (w : World) (master_ip : MasterAddress) (arguments : List String)
    (container : String) (memory : Option Nat)
    (override_parameters : Option (List String)) (run_local : Bool) : M Unit := do
  let default_params := avocado_default_params run_local master_ip
  let docker_params := ["--log-driver", "none", "--net=host"]
  let parameters ← M.ofExcept
    (make_parameters master_ip.address default_params memory arguments override_parameters)
  let start_time ← timeNow w
  dockerCall w container parameters (some docker_params) none
  let end_time ← timeNow w
  log_container_execution container start_time end_time parameters

/-- The `master` flag list of `call_cannoli` (lines 330-336), which
adds a `--jars` flag in the distributed case. -/
def cannoli_master_args (run_local : Bool) (master_ip : MasterAddress) : List String :=
  if run_local then
    ["--master", "local[*]"]
  else
    ["--master", "spark://" ++ master_ip.address ++ ":" ++ SPARK_MASTER_PORT,
     "--jars", "/opt/cgl-docker-lib/cannoli/target/cannoli-spark2_2.11-0.1-SNAPSHOT.jar",
     "--conf", "spark.hadoop.fs.default.name=hdfs://" ++ master_ip.address ++ ":" ++ HDFS_MASTER_PORT]

/-- Embedding of `call_cannoli`: invoke the Cannoli container.  Note the source
passes `master` (not a larger default list) as the default parameters. -/
def call_cannoli (w : World) (master_ip : MasterAddress) (arguments : List String)
    (container : String) (memory : Option Nat)
    (override_parameters : Option (List String)) (run_local : Bool) : M Unit := do
  let master := cannoli_master_args run_local master_ip
  let docker_params := ["--log-driver", "none", "--net=host"]
  let parameters ← M.ofExcept
    (make_parameters master_ip.address master memory arguments override_parameters)
  let start_time ← timeNow w
  dockerCall w container parameters (some docker_params) none
  let end_time ← timeNow w
  log_container_execution container start_time end_time parameters

/-! ## variant_callers.py

Each wrapper is split into a `_core` part — everything up to and
including the uploads, returning the handle(s) of the uploaded outputs
together with the elapsed time(s) — and the final
`if benchmarking: return (…); else: return …` dispatch, exactly
mirroring the source's control flow.  `_log.info` calls go to a local
module logger, not to the leader, and are not modelled. -/

/-- Embedding of `run_freebayes`, up to the upload.  The branch condition models
Python's `job.cores > 1 and chunksize` (`chunksize` is falsy when
`None` or `0`, i.e. when `chunksize.getD 0 = 0`).  In parallel mode the
elapsed time is the sum of the region-generation and calling steps. -/
def run_freebayes_core (w : World) (ref ref_fai bam bai : String)
    (cores : Nat) (chunksize : Option Nat) : M (FileId × Int) := do
  let work_dir ← getLocalTempDir
  readInputs work_dir
    [(ref, "ref.fa"), (ref_fai, "ref.fa.fai"), (bam, "sample.bam"), (bai, "sample.bam.bai")]
  let output_vcf := work_dir ++ "/sample.vcf"
  let elapsed_time ←
    if 1 < cores ∧ chunksize.getD 0 ≠ 0 then do
      let docker_params :=
        ["--rm", "--log-driver", "none", "-v", work_dir ++ ":/data",
         "--entrypoint=/opt/cgl-docker-lib/freebayes/scripts/fasta_generate_regions.py"]
      let start_time ← timeNow w
      dockerCall w "quay.io/ucsc_cgl/freebayes"
        ["/data/ref.fa.fai", toString (chunksize.getD 0)]
        (some docker_params) (some (work_dir ++ "/regions"))
      let end_time ← timeNow w
      log_runtime start_time end_time "fasta_generate_regions"
      let elapsed_time := end_time - start_time
      let docker_params2 :=
        ["--rm", "--log-driver", "none", "-v", work_dir ++ ":/data",
         "--entrypoint=/opt/cgl-docker-lib/freebayes/scripts/freebayes-parallel"]
      let start_time ← timeNow w
      dockerCall w "quay.io/ucsc_cgl/freebayes"
        ["/data/regions", toString cores, "-f", "/data/ref.fa", "/data/sample.bam"]
        (some docker_params2) (some output_vcf)
      let end_time ← timeNow w
      log_runtime start_time end_time "FreeBayes Parallel"
      M.pure (elapsed_time + (end_time - start_time))
    else do
      let start_time ← timeNow w
      dockerCall w "quay.io/ucsc_cgl/freebayes"
        ["-f", "/data/ref.fa", "/data/sample.bam"] none (some output_vcf)
      let end_time ← timeNow w
      log_runtime start_time end_time "FreeBayes"
      M.pure (end_time - start_time)
  let vcf_id ← writeGlobalFile output_vcf
  M.pure (vcf_id, elapsed_time)

/-- Embedding of `run_freebayes`: `return (vcf_id, elapsed_time)` when benchmarking,
`return vcf_id` otherwise. -/
def run_freebayes (w : World) (ref ref_fai bam bai : String) (cores : Nat)
    (chunksize : Option Nat) (benchmarking : Bool) : M Ret := do
  let (vcf_id, elapsed_time) ← run_freebayes_core w ref ref_fai bam bai cores chunksize
  if benchmarking then
    M.pure (Ret.tuple [PyVal.fid vcf_id, PyVal.num elapsed_time])
  else
    M.pure (Ret.scalar (PyVal.fid vcf_id))

/-- Embedding of `run_platypus`, up to the upload.  (Python's log line interpolates
`str(assemble)`; the Lean `toString` of a `Bool` is used in its place.) -/
def run_platypus_core (w : World) (ref ref_fai bam bai : String)
    (cores : Nat) (assemble : Bool) : M (FileId × Int) := do
  let work_dir ← getLocalTempDir
  readInputs work_dir
    [(ref, "ref.fa"), (ref_fai, "ref.fa.fai"), (bam, "sample.bam"), (bai, "sample.bam.bai")]
  let parameters :=
    ["callVariants", "--refFile=/data/ref.fa", "--output=/data/sample.vcf",
     "--bamFiles=/data/sample.bam"] ++
    (if 1 < cores then ["--nCPU", toString cores] else []) ++
    (if assemble then ["--assemble=1"] else [])
  let start_time ← timeNow w
  dockerCall w "quay.io/ucsc_cgl/platypus" parameters none none
  let end_time ← timeNow w
  log_runtime start_time end_time ("Platypus, assemble=" ++ toString assemble)
  let vcf_id ← writeGlobalFile (work_dir ++ "/sample.vcf")
  M.pure (vcf_id, end_time - start_time)

/-- Embedding of `run_platypus`. -/
def run_platypus (w : World) (ref ref_fai bam bai : String) (cores : Nat)
    (assemble : Bool) (benchmarking : Bool) : M Ret := do
  let (vcf_id, elapsed) ← run_platypus_core w ref ref_fai bam bai cores assemble
  if benchmarking then
    M.pure (Ret.tuple [PyVal.fid vcf_id, PyVal.num elapsed])
  else
    M.pure (Ret.scalar (PyVal.fid vcf_id))

/-- Embedding of `run_16gt`, up to the upload.  `genome_index` is the
name-to-FileStoreID dict of SOAP3-dp index files, modelled as an
association list (`values()` extend the ids, `keys()` the names).
Returns the handle with the four per-stage elapsed times. -/
def run_16gt_core (w : World) (ref : String) (genome_index : List (String × String))
    (bam dbsnp sample_name : String) : M (FileId × Int × Int × Int × Int) := do
  let work_dir ← getLocalTempDir
  readInputs work_dir
    ([(ref, "ref.fa"), (bam, "sample.bam"), (dbsnp, "dbsnp.vcf")] ++
     genome_index.map (fun kv => (kv.2, kv.1)))
  let start_time ← timeNow w
  dockerCall w "quay.io/ucsc_cgl/16gt"
    ["/opt/cgl-docker-lib/16GT/bam2snapshot", "-i", "/data/ref.fa.index",
     "-b", "/data/sample.bam", "-o", "/data/sample"] none none
  let end_time ← timeNow w
  log_runtime start_time end_time "16gt bam2snapshot"
  let snapshot_time := end_time - start_time
  let start_time ← timeNow w
  dockerCall w "quay.io/ucsc_cgl/16gt"
    ["/opt/cgl-docker-lib/16GT/snapshotSnpcaller", "-i", "/data/ref.fa.index",
     "-o", "/data/sample"] none none
  let end_time ← timeNow w
  log_runtime start_time end_time "16gt snapshotSnpcaller"
  let snp_caller_time := end_time - start_time
  let start_time ← timeNow w
  dockerCall w "quay.io/ucsc_cgl/16gt"
    ["perl", "/opt/cgl-docker-lib/16GT/txt2vcf.pl", "/data/sample", sample_name,
     "/data/ref.fa"] none (some (work_dir ++ "/sample.vcf"))
  let end_time ← timeNow w
  log_runtime start_time end_time "16gt txt2vcf"
  let text_vcf_time := end_time - start_time
  let start_time ← timeNow w
  dockerCall w "quay.io/ucsc_cgl/16gt"
    ["perl", "/opt/cgl-docker-lib/16GT/filterVCF.pl", "/data/sample.vcf",
     "/data/dbsnp.vcf"] none (some (work_dir ++ "/sample.filtered.vcf"))
  let end_time ← timeNow w
  log_runtime start_time end_time "16gt filterVCF"
  let filter_vcf_time := end_time - start_time
  let vcf_id ← writeGlobalFile (work_dir ++ "/sample.filtered.vcf")
  M.pure (vcf_id, snapshot_time, snp_caller_time, text_vcf_time, filter_vcf_time)

/-- Embedding of `run_16gt`: when benchmarking, returns the handle with the four
per-stage elapsed times (a 5-tuple, not a pair). -/
def run_16gt (w : World) (ref : String) (genome_index : List (String × String))
    (bam dbsnp sample_name : String) (benchmarking : Bool) : M Ret := do
  let (vcf_id, snapshot_time, snp_caller_time, text_vcf_time, filter_vcf_time) ←
    run_16gt_core w ref genome_index bam dbsnp sample_name
  if benchmarking then
    M.pure (Ret.tuple [PyVal.fid vcf_id, PyVal.num snapshot_time,
                       PyVal.num snp_caller_time, PyVal.num text_vcf_time,
                       PyVal.num filter_vcf_time])
  else
    M.pure (Ret.scalar (PyVal.fid vcf_id))

/-- Embedding of `run_strelka`, up to the upload.  The elapsed time returned when
benchmarking is that of the second (run-workflow) container step. -/
def run_strelka_core (w : World) (ref ref_fai bam bai : String)
    (candidate_indels : Option String) (cores : Nat) : M (FileId × Int) := do
  let generate_parameters :=
    ["/opt/strelka/bin/configureStrelkaGermlineWorkflow.py",
     "--bam", "/data/sample.bam", "--referenceFasta", "/data/ref.fa",
     "--runDir", "/data/"] ++
    (match candidate_indels with
     | some _ => ["--indelCandidates", "/data/candidateSmallIndels.vcf.gz"]
     | none => [])
  let work_dir ← getLocalTempDir
  readInputs work_dir
    ([(ref, "ref.fa"), (ref_fai, "ref.fa.fai"), (bam, "sample.bam"),
      (bai, "sample.bam.bai")] ++
     (match candidate_indels with
      | some ci => [(ci, "candidateSmallIndels.vcf.gz")]
      | none => []))
  let start_time ← timeNow w
  dockerCall w "quay.io/ucsc_cgl/strelka" generate_parameters none none
  let end_time ← timeNow w
  log_runtime start_time end_time "Configuring Strelka"
  let start_time ← timeNow w
  dockerCall w "quay.io/ucsc_cgl/strelka"
    ["/data/runWorkflow.py", "-m", "local", "-j", toString cores] none none
  let end_time ← timeNow w
  log_runtime start_time end_time "Strelka"
  let vcf_id ← writeGlobalFile (work_dir ++ "/results/variants/variants.vcf.gz")
  M.pure (vcf_id, end_time - start_time)

/-- Embedding of `run_strelka`. -/
def run_strelka (w : World) (ref ref_fai bam bai : String)
    (candidate_indels : Option String) (cores : Nat) (benchmarking : Bool) : M Ret := do
  let (vcf_id, elapsed) ← run_strelka_core w ref ref_fai bam bai candidate_indels cores
  if benchmarking then
    M.pure (Ret.tuple [PyVal.fid vcf_id, PyVal.num elapsed])
  else
    M.pure (Ret.scalar (PyVal.fid vcf_id))

/-- Embedding of `run_manta`, up to the uploads: returns both handles (structural
variants and candidate small indels) and the elapsed time of the second
container step. -/
def run_manta_core (w : World) (ref ref_fai bam bai : String)
    (cores : Nat) : M ((FileId × FileId) × Int) := do
  let work_dir ← getLocalTempDir
  readInputs work_dir
    [(ref, "ref.fa"), (ref_fai, "ref.fa.fai"), (bam, "sample.bam"), (bai, "sample.bam.bai")]
  let start_time ← timeNow w
  dockerCall w "quay.io/ucsc_cgl/manta"
    ["/opt/manta/bin/configManta.py", "--normalBam", "/data/sample.bam",
     "--referenceFasta", "/data/ref.fa", "--runDir", "/data/"] none none
  let end_time ← timeNow w
  log_runtime start_time end_time "Configuring Manta"
  let start_time ← timeNow w
  dockerCall w "quay.io/ucsc_cgl/manta"
    ["/data/runWorkflow.py", "-m", "local", "-j", toString cores] none none
  let end_time ← timeNow w
  log_runtime start_time end_time "Manta"
  let sv_id ← writeGlobalFile (work_dir ++ "/results/variants/diploidSV.vcf.gz")
  let indel_id ← writeGlobalFile (work_dir ++ "/results/variants/candidateSmallIndels.vcf.gz")
  M.pure ((sv_id, indel_id), end_time - start_time)

/-- Embedding of `run_manta`: `(sv_id, indel_id, elapsed)` when benchmarking,
`(sv_id, indel_id)` otherwise. -/
def run_manta (w : World) (ref ref_fai bam bai : String) (cores : Nat)
    (benchmarking : Bool) : M Ret := do
  let ((sv_id, indel_id), elapsed) ← run_manta_core w ref ref_fai bam bai cores
  if benchmarking then
    M.pure (Ret.tuple [PyVal.fid sv_id, PyVal.fid indel_id, PyVal.num elapsed])
  else
    M.pure (Ret.tuple [PyVal.fid sv_id, PyVal.fid indel_id])

/-- Embedding of `run_samtools_mpileup`, up to the upload. -/
def run_samtools_mpileup_core (w : World) (ref ref_fai bam bai : String) :
    M (FileId × Int) := do
  let work_dir ← getLocalTempDir
  readInputs work_dir
    [(ref, "ref.fa"), (ref_fai, "ref.fa.fai"), (bam, "sample.bam"), (bai, "sample.bam.bai")]
  let start_time ← timeNow w
  dockerCall w "quay.io/ucsc_cgl/samtools"
    ["mpileup", "-f", "/data/ref.fa", "-o", "/data/sample.vcf.gz",
     "/data/sample.bam"] none none
  let end_time ← timeNow w
  log_runtime start_time end_time "samtools mpileup"
  let vcf_id ← writeGlobalFile (work_dir ++ "/sample.vcf.gz")
  M.pure (vcf_id, end_time - start_time)

/-- Embedding of `run_samtools_mpileup`. -/
def run_samtools_mpileup (w : World) (ref ref_fai bam bai : String)
    (benchmarking : Bool) : M Ret := do
  let (vcf_id, elapsed) ← run_samtools_mpileup_core w ref ref_fai bam bai
  if benchmarking then
    M.pure (Ret.tuple [PyVal.fid vcf_id, PyVal.num elapsed])
  else
    M.pure (Ret.scalar (PyVal.fid vcf_id))

/-- Embedding of `run_bcftools_call`, up to the upload. -/
def run_bcftools_call_core (w : World) (vcf_gz : String) (cores : Nat) :
    M (FileId × Int) := do
  let work_dir ← getLocalTempDir
  readGlobalFile vcf_gz (work_dir ++ "/sample.vcf.gz")
  let start_time ← timeNow w
  dockerCall w "quay.io/ucsc_cgl/bcftools"
    ["call", "-o", "/data/sample.calls.vcf.gz", "--threads", toString cores,
     "/data/sample.vcf.gz"] none none
  let end_time ← timeNow w
  log_runtime start_time end_time "bcftools call"
  let vcf_id ← writeGlobalFile (work_dir ++ "/sample.calls.vcf.gz")
  M.pure (vcf_id, end_time - start_time)

/-- Embedding of `run_bcftools_call`. -/
def run_bcftools_call (w : World) (vcf_gz : String) (cores : Nat)
    (benchmarking : Bool) : M Ret := do
  let (vcf_id, elapsed) ← run_bcftools_call_core w vcf_gz cores
  if benchmarking then
    M.pure (Ret.tuple [PyVal.fid vcf_id, PyVal.num elapsed])
  else
    M.pure (Ret.scalar (PyVal.fid vcf_id))

/-- Embedding of `run_gatk3_haplotype_caller`, up to the upload.  The thresholds are
Python floats interpolated with `str(...)`; they are modelled as the
already-formatted strings.  `memory` models `job.memory`. -/
def run_gatk3_haplotype_caller_core (w : World) (ref ref_fai ref_dict bam bai : String)
    (cores memory : Nat) (emit_threshold call_threshold : String) :
    M (FileId × Int) := do
  let work_dir ← getLocalTempDir
  readInputs work_dir
    [(ref, "ref.fa"), (ref_fai, "ref.fa.fai"), (ref_dict, "ref.dict"),
     (bam, "sample.bam"), (bai, "sample.bam.bai")]
  let command :=
    ["-T", "HaplotypeCaller", "-nct", toString cores, "-R", "genome.fa",
     "-I", "input.bam", "-o", "output.g.vcf",
     "-stand_call_conf", call_threshold, "-stand_emit_conf", emit_threshold,
     "-variant_index_type", "LINEAR", "-variant_index_parameter", "128000",
     "--genotyping_mode", "Discovery", "--emitRefConfidence", "GVCF"]
  let docker_params :=
    ["--rm", "--log-driver", "none",
     "-e", "JAVA_OPTS=-Djava.io.tmpdir=/data/ -Xmx" ++ toString memory,
     "-v", work_dir ++ ":/data"]
  let start_time ← timeNow w
  dockerCall w "quay.io/ucsc_cgl/gatk:3.5--dba6dae49156168a909c43330350c6161dc7ecc2"
    command (some docker_params) none
  let end_time ← timeNow w
  log_runtime start_time end_time "GATK3 HaplotypeCaller"
  let vcf_id ← writeGlobalFile (work_dir ++ "/output.g.vcf")
  M.pure (vcf_id, end_time - start_time)

/-- Embedding of `run_gatk3_haplotype_caller`. -/
def run_gatk3_haplotype_caller (w : World) (ref ref_fai ref_dict bam bai : String)
    (cores memory : Nat) (emit_threshold call_threshold : String)
    (benchmarking : Bool) : M Ret := do
  let (vcf_id, elapsed) ←
    run_gatk3_haplotype_caller_core w ref ref_fai ref_dict bam bai cores memory
      emit_threshold call_threshold
  if benchmarking then
    M.pure (Ret.tuple [PyVal.fid vcf_id, PyVal.num elapsed])
  else
    M.pure (Ret.scalar (PyVal.fid vcf_id))

/-! ## indexing.py -/

/-- Embedding of `run_bwa_index`: builds the five BWA index files and uploads them,
returning a name-to-handle association (the Python dict keyed by the
extension). -/
def run_bwa_index (w : World) (ref_id : String) : M (List (String × FileId)) := do
  let work_dir ← getLocalTempDir
  readGlobalFile ref_id (work_dir ++ "/ref.fa")
  dockerCall w "quay.io/ucsc_cgl/bwa:0.7.12--256539928ea162949d8a65ca5c79a72ef557ce7c"
    ["index", "/data/ref.fa"] none none
  let outputs := ["ref.fa.amb", "ref.fa.ann", "ref.fa.bwt", "ref.fa.pac", "ref.fa.sa"]
  let ids ← outputs.mapM (fun output => do
    let fid ← writeGlobalFile (work_dir ++ "/" ++ output)
    M.pure ((output.splitOn ".").getLastD "", fid))
  M.pure ids

/-- Embedding of `run_samtools_faidx`. -/
def run_samtools_faidx (w : World) (ref_id : String) : M FileId := do
  let work_dir ← getLocalTempDir
  readGlobalFile ref_id (work_dir ++ "/ref.fasta")
  dockerCall w "quay.io/ucsc_cgl/samtools:0.1.19--dd5ac549b95eb3e5d166a5e310417ef13651994e"
    ["faidx", "/data/ref.fasta"] none none
  writeGlobalFile (work_dir ++ "/ref.fasta.fai")

/-- Embedding of `run_bowtie2_index`. -/
def run_bowtie2_index (w : World) (ref_id : String) : M (List (String × FileId)) := do
  let work_dir ← getLocalTempDir
  readGlobalFile ref_id (work_dir ++ "/ref.fa")
  let docker_params :=
    ["--rm", "--log-driver", "none", "-v", work_dir ++ ":/data",
     "--entrypoint=/opt/bowtie2/bowtie2-2.3.2/bowtie2-build"]
  dockerCall w "quay.io/ucsc_cgl/bowtie2"
    ["/data/ref.fa", "/data/ref"] (some docker_params) none
  let outputs := ["ref.1.bt2", "ref.2.bt2", "ref.3.bt2", "ref.4.bt2",
                  "ref.rev.1.bt2", "ref.rev.2.bt2"]
  outputs.mapM (fun output => do
    let fid ← writeGlobalFile (work_dir ++ "/" ++ output)
    M.pure (output, fid))

/-- Embedding of `run_snap_index`. -/
def run_snap_index (w : World) (ref_id : String) : M (List (String × FileId)) := do
  let work_dir ← getLocalTempDir
  readGlobalFile ref_id (work_dir ++ "/ref.fa")
  dockerCall w "quay.io/ucsc_cgl/snap"
    ["index", "/data/ref.fa", "/data/"] none none
  let outputs := ["Genome", "GenomeIndex", "GenomeIndexHash", "OverflowTable"]
  outputs.mapM (fun output => do
    let fid ← writeGlobalFile (work_dir ++ "/" ++ output)
    M.pure (output, fid))

/-- Embedding of `run_soap3_index`: two container invocations, fourteen uploads. -/
def run_soap3_index (w : World) (ref : String) (bwa_indices : List (String × String)) :
    M (List (String × FileId)) := do
  let work_dir ← getLocalTempDir
  readGlobalFile ref (work_dir ++ "/ref.fa")
  readInputs work_dir (bwa_indices.map (fun kv => (kv.2, "ref.fa." ++ kv.1)))
  dockerCall w "quay.io/ucsc_cgl/soap3-dp"
    ["/opt/cgl-docker-lib/SOAP3-dp/soap3-dp-builder", "/data/ref.fa"] none none
  dockerCall w "quay.io/ucsc_cgl/soap3-dp"
    ["/opt/cgl-docker-lib/SOAP3-dp/BGS-Build", "/data/ref.fa.index"] none none
  let index_files :=
    ["ref.fa.index.amb", "ref.fa.index.ann", "ref.fa.index.bwt", "ref.fa.index.fmv",
     "ref.fa.index.fmv.gpu", "ref.fa.index.lkt", "ref.fa.index.pac",
     "ref.fa.index.rev.bwt", "ref.fa.index.rev.fmv", "ref.fa.index.rev.fmv.gpu",
     "ref.fa.index.rev.lkt", "ref.fa.index.rev.pac", "ref.fa.index.sa",
     "ref.fa.index.tra"]
  index_files.mapM (fun index => do
    let fid ← writeGlobalFile (work_dir ++ "/" ++ index)
    M.pure (index, fid))

/-! ## The external file store (spec model, for the round-trip property)

Modelled from the spec: `toil_lib/urls.py` (`s3am_upload`,
`download_url`) is not among the sources — only its test
`test_urls.py` is.  The spec describes the store as "external
content-addressed storage referenced by opaque handles": an upload
stores a blob and returns a fresh handle, a download fetches the blob a
handle references, and blobs are never mutated. -/

structure FileStore where
  blobs : List (List Nat)
deriving DecidableEq, Repr

/-- Modelled from the spec: `s3am_upload` — store the file's bytes,
returning the handle that references them. -/
def upload (st : FileStore) (content : List Nat) : FileStore × Nat :=
  ({ blobs := st.blobs ++ [content] }, st.blobs.length)

/-- Modelled from the spec: `download_url` — fetch the bytes referenced
by a handle. -/
def download (st : FileStore) (handle : Nat) : Option (List Nat) :=
  st.blobs.get? handle

/-! ## Small auxiliary definitions for concrete runs -/

/-- A world in which every external invocation succeeds and the clock
ticks 0, 1, 2, …. -/
def allOkWorld : World :=
  { clock := fun k => (k : Int), dockerErr := fun _ => none, procErr := fun _ => none }

/-- A world in which every external invocation fails. -/
def failWorld : World :=
  { clock := fun k => (k : Int),
    dockerErr := fun _ => some "docker failure",
    procErr := fun _ => some "process failure" }

/-- The number of elapsed-time components in a wrapper's return value. -/
def Ret.numCount : Ret → Nat
  | Ret.scalar (PyVal.num _) => 1
  | Ret.scalar (PyVal.fid _) => 0
  | Ret.tuple vs =>
    (vs.filter (fun v => match v with | PyVal.num _ => true | PyVal.fid _ => false)).length

/-! ## Helper lemmas about strings produced by `spark_conf_parameters` -/

theorem string_data_append (a b : String) : (a ++ b).data = a.data ++ b.data := by
  cases a; cases b; rfl

theorem string_length_append (a b : String) : (a ++ b).length = a.length + b.length := by
  show (a ++ b).data.length = a.data.length + b.data.length
  rw [string_data_append, List.length_append]

/-- No element of the memory-derived Spark flags is the bare separator
`"--"`: each element is either a fixed flag name or a string of length
greater than two. -/
theorem dashdash_not_mem_spark_conf (mi : String) (m : Nat) :
    "--" ∉ spark_conf_parameters mi m := by
  have hlen : ∀ a b : String, 2 < (a ++ b).length → a ++ b ≠ "--" := by
    intro a b hab h
    rw [h] at hab
    have h2 : ("--" : String).length = 2 := rfl
    omega
  intro hmem
  simp only [spark_conf_parameters, List.mem_cons, List.not_mem_nil, or_false] at hmem
  rcases hmem with h | h | h | h | h | h | h | h
  · exact absurd h (by decide)
  · refine absurd h.symm (hlen _ _ ?_)
    simp only [string_length_append]
    have : ("spark://" : String).length = 8 := rfl
    omega
  · exact absurd h (by decide)
  · refine absurd h.symm (hlen _ _ ?_)
    simp only [string_length_append]
    have : ("spark.driver.memory=" : String).length = 20 := rfl
    omega
  · exact absurd h (by decide)
  · refine absurd h.symm (hlen _ _ ?_)
    simp only [string_length_append]
    have : ("spark.executor.memory=" : String).length = 22 := rfl
    omega
  · exact absurd h (by decide)
  · refine absurd h.symm (hlen _ _ ?_)
    simp only [string_length_append]
    have : ("spark.hadoop.fs.default.name=hdfs://" : String).length = 36 := rfl
    omega

/-! ## Helper lemmas about the effect monad -/

theorem M.bind_app {α β : Type} (x : M α) (f : α → M β) (s : EffState) :
    (x >>= f) s =
      match x s with
      | (s', Except.ok a) => f a s'
      | (s', Except.error e) => (s', Except.error e) := rfl

theorem M.pure_app {α : Type} (a : α) (s : EffState) :
    (Pure.pure a : M α) s = (s, Except.ok a) := rfl

/-- Embedding of `readInputs` always succeeds and appends one read event per file. -/
theorem readInputs_app (work_dir : String) (files : List (String × String)) (s : EffState) :
    readInputs work_dir files s =
      ({ s with events := s.events ++
          files.map (fun p => Event.read p.1 (work_dir ++ "/" ++ p.2)) },
       Except.ok ()) := by
  induction files generalizing s with
  | nil => simp [readInputs, M.pure_app]
  | cons p ps ih =>
    simp only [readInputs] at ih ⊢
    simp [List.forM_cons, M.bind_app, initState, readGlobalFile, ih, List.append_assoc]

/-! ## Claims about `_make_parameters` -/

/-- C1: a call to `_make_parameters` succeeds and returns a parameter
list when exactly one of `memory`, `override_parameters` is supplied,
and fails with the configuration error when both or neither are
supplied. -/
theorem make_parameters_exactly_one (master_ip : String) (default_parameters : List String)
    (memory : Option Nat) (arguments : List String)
    (override_parameters : Option (List String)) :
    (memory.isSome ≠ override_parameters.isSome →
      ∃ ps, make_parameters master_ip default_parameters memory arguments override_parameters =
        Except.ok ps) ∧
    (memory.isSome = override_parameters.isSome →
      make_parameters master_ip default_parameters memory arguments override_parameters =
        Except.error make_parameters_error_msg) := by
  cases memory <;> cases override_parameters <;>
    simp [make_parameters, require, Bind.bind, Except.bind, pure, Except.pure]

/-- Witness for C1: with only `memory` supplied the call succeeds, with
neither supplied it fails with the configuration error. -/
theorem make_parameters_exactly_one_witness :
    (∃ ps, make_parameters "host" [] (some 4) ["run"] none = Except.ok ps) ∧
    make_parameters "host" [] none ["run"] none = Except.error make_parameters_error_msg :=
  ⟨(make_parameters_exactly_one "host" [] (some 4) ["run"] none).1 (by decide),
   (make_parameters_exactly_one "host" [] none ["run"] none).2 rfl⟩

/-- C2: every successful call to `_make_parameters` returns
`[computed-or-override flags] ++ default_parameters ++ ["--"] ++ arguments`,
where the first segment is the memory-derived Spark configuration when
`memory` is supplied and is `override_parameters` when the override
flags are supplied. -/
theorem make_parameters_concatenation (master_ip : String) (default_parameters : List String)
    (memory : Option Nat) (arguments : List String)
    (override_parameters : Option (List String)) (ps : List String)
    (h : make_parameters master_ip default_parameters memory arguments override_parameters =
      Except.ok ps) :
    (∀ m, memory = some m →
      ps = spark_conf_parameters master_ip m ++ default_parameters ++ ["--"] ++ arguments) ∧
    (∀ o, override_parameters = some o → memory = none →
      ps = o ++ default_parameters ++ ["--"] ++ arguments) := by
  cases memory <;> cases override_parameters <;>
    simp_all [make_parameters, require, Bind.bind, Except.bind, pure, Except.pure]

/-- Witness for C2: the memory-supplied example instantiates the
concatenation shape. -/
theorem make_parameters_concatenation_witness :
    ["--master", "spark://host:7077",
     "--conf", "spark.driver.memory=4",
     "--conf", "spark.executor.memory=4",
     "--conf", "spark.hadoop.fs.default.name=hdfs://host:8020",
     "--", "run"] =
      spark_conf_parameters "host" 4 ++ [] ++ ["--"] ++ ["run"] :=
  (make_parameters_concatenation "host" [] (some 4) ["run"] none _ rfl).1 4 rfl

/-- C5 counterexample: a successful call whose `arguments` already
contain `"--"` returns a list with two `"--"` tokens, so the returned
list does not always contain exactly one `"--"`. -/
theorem make_parameters_separator_counterexample :
    ((make_parameters "host" [] (some 4) ["--"] none).toOption.getD []).count "--" = 2 ∧
    (make_parameters "host" [] (some 4) ["--"] none).isOk = true := by
  constructor <;> rfl

/-- C5 (amended): provided the default parameters, the tool arguments
and the override flags do not themselves contain `"--"`, every
successful call returns a list with exactly one `"--"`, positioned
between the configuration flags and the tool arguments. -/
theorem make_parameters_separator (master_ip : String) (default_parameters : List String)
    (memory : Option Nat) (arguments : List String)
    (override_parameters : Option (List String)) (ps : List String)
    (h : make_parameters master_ip default_parameters memory arguments override_parameters =
      Except.ok ps)
    (hdp : "--" ∉ default_parameters) (hargs : "--" ∉ arguments)
    (hov : ∀ o, override_parameters = some o → "--" ∉ o) :
    ∃ flags, ps = flags ++ ["--"] ++ arguments ∧ "--" ∉ flags ∧ ps.count "--" = 1 := by
  have hcount : ∀ flags : List String, "--" ∉ flags →
      (flags ++ ["--"] ++ arguments).count "--" = 1 := by
    intro flags hflags
    rw [List.count_append, List.count_append]
    rw [List.count_eq_zero.mpr hflags, List.count_eq_zero.mpr hargs]
    rfl
  cases memory with
  | some m =>
    have h1 := (make_parameters_concatenation _ _ _ _ _ _ h).1 m rfl
    have hflags : "--" ∉ spark_conf_parameters master_ip m ++ default_parameters := by
      intro hmem
      rcases List.mem_append.mp hmem with hmem | hmem
      · exact dashdash_not_mem_spark_conf master_ip m hmem
      · exact hdp hmem
    refine ⟨spark_conf_parameters master_ip m ++ default_parameters, ?_, hflags, ?_⟩
    · simp [h1]
    · rw [h1]
      have := hcount _ hflags
      simpa [List.append_assoc] using this
  | none =>
    cases override_parameters with
    | none =>
      exact absurd h (by simp [make_parameters, require, Bind.bind, Except.bind, pure, Except.pure])
    | some o =>
      have h1 := (make_parameters_concatenation _ _ _ _ _ _ h).2 o rfl rfl
      have hflags : "--" ∉ o ++ default_parameters := by
        intro hmem
        rcases List.mem_append.mp hmem with hmem | hmem
        · exact hov o rfl hmem
        · exact hdp hmem
      refine ⟨o ++ default_parameters, ?_, hflags, ?_⟩
      · simp [h1]
      · rw [h1]
        have := hcount _ hflags
        simpa [List.append_assoc] using this

/-- Witness for C5 (amended): on the spec's example input the returned
list has its single `"--"` right before the tool arguments. -/
theorem make_parameters_separator_witness :
    ∃ flags,
      ["--master", "spark://host:7077",
       "--conf", "spark.driver.memory=4",
       "--conf", "spark.executor.memory=4",
       "--conf", "spark.hadoop.fs.default.name=hdfs://host:8020",
       "--", "run"] = flags ++ ["--"] ++ ["run"] ∧
      "--" ∉ flags ∧
      (["--master", "spark://host:7077",
        "--conf", "spark.driver.memory=4",
        "--conf", "spark.executor.memory=4",
        "--conf", "spark.hadoop.fs.default.name=hdfs://host:8020",
        "--", "run"] : List String).count "--" = 1 :=
  make_parameters_separator "host" [] (some 4) ["run"] none _ rfl
    (by decide) (by decide) (fun o ho => by cases ho)

/-- C6: the spec's example — `_make_parameters("host", [], 4, ["run"], None)`
succeeds, ends in `…, "--", "run"` and contains `spark.driver.memory=4`. -/
theorem make_parameters_example :
    make_parameters "host" [] (some 4) ["run"] none =
      Except.ok ["--master", "spark://host:7077",
                 "--conf", "spark.driver.memory=4",
                 "--conf", "spark.executor.memory=4",
                 "--conf", "spark.hadoop.fs.default.name=hdfs://host:8020",
                 "--", "run"] ∧
    ((make_parameters "host" [] (some 4) ["run"] none).toOption.getD []).reverse.take 2 =
      ["run", "--"] ∧
    "spark.driver.memory=4" ∈ (make_parameters "host" [] (some 4) ["run"] none).toOption.getD [] := by
  refine ⟨rfl, rfl, ?_⟩
  decide

/-! ## Claims about `MasterAddress` -/

/-- C3 counterexample: when the notional and actual addresses differ
and the incoming docker parameter list already contains the add-host
flag, the result contains that flag twice, not exactly once. -/
theorem docker_parameters_counterexample :
    (((MasterAddress.mk "notional" "actual").docker_parameters
        (some ["--add-host=spark-master:actual"])).getD []).count
      "--add-host=spark-master:actual" = 2 := by
  decide

/-- C3 (amended): a `MasterAddress` equal to its actual address returns
the docker parameter list unchanged; one differing from its actual
address appends exactly one `--add-host=spark-master:<actual>` flag
(creating the list when it was `None`), so the result contains exactly
one such flag whenever the input did not already contain it. -/
theorem docker_parameters_add_host (m : MasterAddress) :
    (m.address = m.actual → ∀ ps, m.docker_parameters ps = ps) ∧
    (m.address ≠ m.actual →
      m.docker_parameters none = some ["--add-host=spark-master:" ++ m.actual] ∧
      (∀ l, m.docker_parameters (some l) =
        some (l ++ ["--add-host=spark-master:" ++ m.actual])) ∧
      (∀ l, ("--add-host=spark-master:" ++ m.actual) ∉ l →
        ((m.docker_parameters (some l)).getD []).count
          ("--add-host=spark-master:" ++ m.actual) = 1)) := by
  constructor
  · intro h ps
    simp [MasterAddress.docker_parameters, h]
  · intro h
    refine ⟨by simp [MasterAddress.docker_parameters, h], ?_, ?_⟩
    · intro l
      simp [MasterAddress.docker_parameters, h]
    · intro l hl
      simp [MasterAddress.docker_parameters, h, List.count_append,
            List.count_eq_zero.mpr hl]

/-- Witness for C3 (amended): both branches at concrete addresses. -/
theorem docker_parameters_add_host_witness :
    (MasterAddress.mk "same" "same").docker_parameters (some ["-v"]) = some ["-v"] ∧
    (MasterAddress.mk "notional" "actual").docker_parameters none =
      some ["--add-host=spark-master:actual"] :=
  ⟨(docker_parameters_add_host (MasterAddress.mk "same" "same")).1 rfl (some ["-v"]),
   ((docker_parameters_add_host (MasterAddress.mk "notional" "actual")).2 (by decide)).1⟩

/-- C10: a freshly constructed `MasterAddress(s)` equals `s`, equals its
own `actual` field, and its `docker_parameters` returns its argument
unchanged — in particular `None` for `None`. -/
theorem master_address_fresh_invariant (s : String) :
    (MasterAddress.init s).address = s ∧
    (MasterAddress.init s).actual = (MasterAddress.init s).address ∧
    (∀ ps, (MasterAddress.init s).docker_parameters ps = ps) ∧
    (MasterAddress.init s).docker_parameters none = none := by
  refine ⟨rfl, rfl, ?_, ?_⟩ <;>
    simp [MasterAddress.init, MasterAddress.docker_parameters]

/-! ## Claim about `_format_time` -/

/-- C4: `_format_time` does not return the h/m/s decomposition of the
elapsed interval: at `start_time = 0, end_time = 5` it returns
`"0h 0m 0s"` (the hours value is interpolated into the seconds slot of
the format string, line 113 of spark_tools.py) instead of the
`"0h 0m 5s"` required by its docstring and the spec. -/
theorem format_time_seconds_bug :
    format_time 0 5 = "0h 0m 0s" ∧
    format_time_spec 0 5 = "0h 0m 5s" ∧
    format_time 0 5 ≠ format_time_spec 0 5 := by
  refine ⟨rfl, rfl, ?_⟩
  decide

/-! ## Claim about the external file store -/

/-- C9: uploading a local file to the external store and downloading
the returned handle yields the original content. -/
theorem upload_download_roundtrip (st : FileStore) (content : List Nat) :
    download (upload st content).1 (upload st content).2 = some content := by
  simp [upload, download, List.getElem?_concat_length]

/-! ## Claim about the benchmarking return shapes -/

/-- C7 (amended): each variant-caller wrapper returns, when
`benchmarking` is false, only the opaque handle(s) of its uploaded
outputs, and, when `benchmarking` is true, those same handle(s)
together with the elapsed wall time(s) — a single elapsed time for
every wrapper except `run_16gt`, which returns its handle with the four
per-stage elapsed times. -/
theorem benchmarking_return_shapes :
    (∀ w ref ref_fai bam bai cores chunksize s s' vcf_id t,
      run_freebayes_core w ref ref_fai bam bai cores chunksize s =
        (s', Except.ok (vcf_id, t)) →
      run_freebayes w ref ref_fai bam bai cores chunksize false s =
        (s', Except.ok (Ret.scalar (PyVal.fid vcf_id))) ∧
      run_freebayes w ref ref_fai bam bai cores chunksize true s =
        (s', Except.ok (Ret.tuple [PyVal.fid vcf_id, PyVal.num t]))) ∧
    (∀ w ref ref_fai bam bai cores assemble s s' vcf_id t,
      run_platypus_core w ref ref_fai bam bai cores assemble s =
        (s', Except.ok (vcf_id, t)) →
      run_platypus w ref ref_fai bam bai cores assemble false s =
        (s', Except.ok (Ret.scalar (PyVal.fid vcf_id))) ∧
      run_platypus w ref ref_fai bam bai cores assemble true s =
        (s', Except.ok (Ret.tuple [PyVal.fid vcf_id, PyVal.num t]))) ∧
    (∀ w ref genome_index bam dbsnp sample_name s s' vcf_id t1 t2 t3 t4,
      run_16gt_core w ref genome_index bam dbsnp sample_name s =
        (s', Except.ok (vcf_id, t1, t2, t3, t4)) →
      run_16gt w ref genome_index bam dbsnp sample_name false s =
        (s', Except.ok (Ret.scalar (PyVal.fid vcf_id))) ∧
      run_16gt w ref genome_index bam dbsnp sample_name true s =
        (s', Except.ok (Ret.tuple [PyVal.fid vcf_id, PyVal.num t1, PyVal.num t2,
                                   PyVal.num t3, PyVal.num t4]))) ∧
    (∀ w ref ref_fai bam bai candidate_indels cores s s' vcf_id t,
      run_strelka_core w ref ref_fai bam bai candidate_indels cores s =
        (s', Except.ok (vcf_id, t)) →
      run_strelka w ref ref_fai bam bai candidate_indels cores false s =
        (s', Except.ok (Ret.scalar (PyVal.fid vcf_id))) ∧
      run_strelka w ref ref_fai bam bai candidate_indels cores true s =
        (s', Except.ok (Ret.tuple [PyVal.fid vcf_id, PyVal.num t]))) ∧
    (∀ w ref ref_fai bam bai cores s s' sv_id indel_id t,
      run_manta_core w ref ref_fai bam bai cores s =
        (s', Except.ok ((sv_id, indel_id), t)) →
      run_manta w ref ref_fai bam bai cores false s =
        (s', Except.ok (Ret.tuple [PyVal.fid sv_id, PyVal.fid indel_id])) ∧
      run_manta w ref ref_fai bam bai cores true s =
        (s', Except.ok (Ret.tuple [PyVal.fid sv_id, PyVal.fid indel_id, PyVal.num t]))) ∧
    (∀ w ref ref_fai bam bai s s' vcf_id t,
      run_samtools_mpileup_core w ref ref_fai bam bai s =
        (s', Except.ok (vcf_id, t)) →
      run_samtools_mpileup w ref ref_fai bam bai false s =
        (s', Except.ok (Ret.scalar (PyVal.fid vcf_id))) ∧
      run_samtools_mpileup w ref ref_fai bam bai true s =
        (s', Except.ok (Ret.tuple [PyVal.fid vcf_id, PyVal.num t]))) ∧
    (∀ w vcf_gz cores s s' vcf_id t,
      run_bcftools_call_core w vcf_gz cores s = (s', Except.ok (vcf_id, t)) →
      run_bcftools_call w vcf_gz cores false s =
        (s', Except.ok (Ret.scalar (PyVal.fid vcf_id))) ∧
      run_bcftools_call w vcf_gz cores true s =
        (s', Except.ok (Ret.tuple [PyVal.fid vcf_id, PyVal.num t]))) ∧
    (∀ w ref ref_fai ref_dict bam bai cores memory et ct s s' vcf_id t,
      run_gatk3_haplotype_caller_core w ref ref_fai ref_dict bam bai cores memory et ct s =
        (s', Except.ok (vcf_id, t)) →
      run_gatk3_haplotype_caller w ref ref_fai ref_dict bam bai cores memory et ct false s =
        (s', Except.ok (Ret.scalar (PyVal.fid vcf_id))) ∧
      run_gatk3_haplotype_caller w ref ref_fai ref_dict bam bai cores memory et ct true s =
        (s', Except.ok (Ret.tuple [PyVal.fid vcf_id, PyVal.num t]))) := by
  refine ⟨?_, ?_, ?_, ?_, ?_, ?_, ?_, ?_⟩ <;>
    · intros
      constructor <;>
        simp [run_freebayes, run_platypus, run_16gt, run_strelka, run_manta,
              run_samtools_mpileup, run_bcftools_call, run_gatk3_haplotype_caller,
              M.bind_app, initState, M.pure, *]

/-- Witness for C7 (amended): a concrete single-threaded FreeBayes run
in the all-success world returns the bare handle without benchmarking
and the handle-time pair with it. -/
theorem benchmarking_return_shapes_witness :
    run_freebayes allOkWorld "r" "rf" "b" "bi" 1 none false initState =
      ((run_freebayes_core allOkWorld "r" "rf" "b" "bi" 1 none initState).1,
       Except.ok (Ret.scalar (PyVal.fid ⟨0⟩))) ∧
    run_freebayes allOkWorld "r" "rf" "b" "bi" 1 none true initState =
      ((run_freebayes_core allOkWorld "r" "rf" "b" "bi" 1 none initState).1,
       Except.ok (Ret.tuple [PyVal.fid ⟨0⟩, PyVal.num 1])) :=
  benchmarking_return_shapes.1 allOkWorld "r" "rf" "b" "bi" 1 none initState _ ⟨0⟩ 1 rfl

/-- C7 counterexample: with benchmarking requested, `run_16gt` returns
its handle with four elapsed-time components — a 5-tuple — not the
handle paired with a single elapsed wall time. -/
theorem run_16gt_counterexample :
    (run_16gt allOkWorld "r" [] "b" "d" "sample" true initState).2 =
      Except.ok (Ret.tuple [PyVal.fid ⟨0⟩, PyVal.num 1, PyVal.num 1,
                            PyVal.num 1, PyVal.num 1]) ∧
    Ret.numCount (Ret.tuple [PyVal.fid ⟨0⟩, PyVal.num 1, PyVal.num 1,
                             PyVal.num 1, PyVal.num 1]) = 4 := by
  constructor <;> rfl

/-! ## Claim about failure propagation

For every embedded wrapper and every container-invocation site, if the
external invocation at that site fails (all earlier sites having
succeeded, which is the only way execution reaches it) then the wrapper
fails with that same error, uploads nothing (`nextFileId = 0`: no
handle was created) and has attempted each reached site exactly once
(`dockerCalls` equals the index of the failing site plus one).  For
`call_conductor` the all-success case additionally pins down the whole
trace — the one docker site runs exactly once — and for `run_freebayes`
the all-success case pins down the number of attempts on both paths. -/

set_option maxHeartbeats 3200000 in
/-- C8: failures of the external container invocation propagate to the
caller unhandled, with no retry and no outputs uploaded. -/
theorem docker_failure_propagation :
    -- call_conductor: its only docker site fails
    (∀ w m src dst container mem ov ps e,
      make_parameters (MasterAddress.address m) [] mem ["-C", src, dst] ov = Except.ok ps →
      w.dockerErr 0 = some e →
      (call_conductor w m src dst container mem ov initState).2 = Except.error e ∧
      (call_conductor w m src dst container mem ov initState).1.nextFileId = 0 ∧
      (call_conductor w m src dst container mem ov initState).1.dockerCalls = 1) ∧
    -- call_conductor: all-success exact trace
    (∀ w m src dst container mem ov ps,
      make_parameters (MasterAddress.address m) [] mem ["-C", src, dst] ov = Except.ok ps →
      w.dockerErr 0 = none →
      call_conductor w m src dst container mem ov initState =
        ({ timeCalls := 2, dockerCalls := 1, procCalls := 0, nextFileId := 0,
           events := [Event.docker container ps
                        (some ["--log-driver", "none", "--net=host"]) none,
                      Event.containerLog container
                        (format_time (w.clock 0) (w.clock 1)) ps] },
         Except.ok ())) ∧
    -- call_adam, docker path
    (∀ w m args container mem ov rl ps e,
      make_parameters (MasterAddress.address m) (adam_default_params rl m) mem args ov =
        Except.ok ps →
      w.dockerErr 0 = some e →
      (call_adam w m args container mem ov rl none initState).2 = Except.error e ∧
      (call_adam w m args container mem ov rl none initState).1.nextFileId = 0 ∧
      (call_adam w m args container mem ov rl none initState).1.dockerCalls = 1) ∧
    -- call_adam, native path: the subprocess invocation fails
    (∀ w m args container mem ov rl path e,
      w.procErr 0 = some e →
      (call_adam w m args container mem ov rl (some path) initState).2 = Except.error e ∧
      (call_adam w m args container mem ov rl (some path) initState).1.nextFileId = 0 ∧
      (call_adam w m args container mem ov rl (some path) initState).1.procCalls = 1) ∧
    -- call_avocado
    (∀ w m args container mem ov rl ps e,
      make_parameters (MasterAddress.address m) (avocado_default_params rl m) mem args ov =
        Except.ok ps →
      w.dockerErr 0 = some e →
      (call_avocado w m args container mem ov rl initState).2 = Except.error e ∧
      (call_avocado w m args container mem ov rl initState).1.nextFileId = 0 ∧
      (call_avocado w m args container mem ov rl initState).1.dockerCalls = 1) ∧
    -- call_cannoli
    (∀ w m args container mem ov rl ps e,
      make_parameters (MasterAddress.address m) (cannoli_master_args rl m) mem args ov =
        Except.ok ps →
      w.dockerErr 0 = some e →
      (call_cannoli w m args container mem ov rl initState).2 = Except.error e ∧
      (call_cannoli w m args container mem ov rl initState).1.nextFileId = 0 ∧
      (call_cannoli w m args container mem ov rl initState).1.dockerCalls = 1) ∧
    -- run_freebayes: first reached site fails (either branch)
    (∀ w ref ref_fai bam bai cores chunksize b e,
      w.dockerErr 0 = some e →
      (run_freebayes w ref ref_fai bam bai cores chunksize b initState).2 = Except.error e ∧
      (run_freebayes w ref ref_fai bam bai cores chunksize b initState).1.nextFileId = 0 ∧
      (run_freebayes w ref ref_fai bam bai cores chunksize b initState).1.dockerCalls = 1) ∧
    -- run_freebayes: parallel branch, second site fails
    (∀ w ref ref_fai bam bai cores chunksize b e,
      1 < cores → chunksize.getD 0 ≠ 0 →
      w.dockerErr 0 = none → w.dockerErr 1 = some e →
      (run_freebayes w ref ref_fai bam bai cores chunksize b initState).2 = Except.error e ∧
      (run_freebayes w ref ref_fai bam bai cores chunksize b initState).1.nextFileId = 0 ∧
      (run_freebayes w ref ref_fai bam bai cores chunksize b initState).1.dockerCalls = 2) ∧
    -- run_freebayes: all sites succeed — one attempt per site on the
    -- taken path, exactly one upload
    (∀ w ref ref_fai bam bai cores chunksize b,
      w.dockerErr 0 = none → w.dockerErr 1 = none →
      (∃ r, (run_freebayes w ref ref_fai bam bai cores chunksize b initState).2 =
        Except.ok r) ∧
      (run_freebayes w ref ref_fai bam bai cores chunksize b initState).1.dockerCalls =
        (if 1 < cores ∧ chunksize.getD 0 ≠ 0 then 2 else 1) ∧
      (run_freebayes w ref ref_fai bam bai cores chunksize b initState).1.nextFileId = 1) ∧
    -- run_platypus
    (∀ w ref ref_fai bam bai cores assemble b e,
      w.dockerErr 0 = some e →
      (run_platypus w ref ref_fai bam bai cores assemble b initState).2 = Except.error e ∧
      (run_platypus w ref ref_fai bam bai cores assemble b initState).1.nextFileId = 0 ∧
      (run_platypus w ref ref_fai bam bai cores assemble b initState).1.dockerCalls = 1) ∧
    -- run_16gt: each of its four sites
    (∀ w ref gi bam dbsnp sn b e,
      w.dockerErr 0 = some e →
      (run_16gt w ref gi bam dbsnp sn b initState).2 = Except.error e ∧
      (run_16gt w ref gi bam dbsnp sn b initState).1.nextFileId = 0 ∧
      (run_16gt w ref gi bam dbsnp sn b initState).1.dockerCalls = 1) ∧
    (∀ w ref gi bam dbsnp sn b e,
      w.dockerErr 0 = none → w.dockerErr 1 = some e →
      (run_16gt w ref gi bam dbsnp sn b initState).2 = Except.error e ∧
      (run_16gt w ref gi bam dbsnp sn b initState).1.nextFileId = 0 ∧
      (run_16gt w ref gi bam dbsnp sn b initState).1.dockerCalls = 2) ∧
    (∀ w ref gi bam dbsnp sn b e,
      w.dockerErr 0 = none → w.dockerErr 1 = none → w.dockerErr 2 = some e →
      (run_16gt w ref gi bam dbsnp sn b initState).2 = Except.error e ∧
      (run_16gt w ref gi bam dbsnp sn b initState).1.nextFileId = 0 ∧
      (run_16gt w ref gi bam dbsnp sn b initState).1.dockerCalls = 3) ∧
    (∀ w ref gi bam dbsnp sn b e,
      w.dockerErr 0 = none → w.dockerErr 1 = none → w.dockerErr 2 = none →
      w.dockerErr 3 = some e →
      (run_16gt w ref gi bam dbsnp sn b initState).2 = Except.error e ∧
      (run_16gt w ref gi bam dbsnp sn b initState).1.nextFileId = 0 ∧
      (run_16gt w ref gi bam dbsnp sn b initState).1.dockerCalls = 4) ∧
    -- run_strelka: both sites
    (∀ w ref ref_fai bam bai ci cores b e,
      w.dockerErr 0 = some e →
      (run_strelka w ref ref_fai bam bai ci cores b initState).2 = Except.error e ∧
      (run_strelka w ref ref_fai bam bai ci cores b initState).1.nextFileId = 0 ∧
      (run_strelka w ref ref_fai bam bai ci cores b initState).1.dockerCalls = 1) ∧
    (∀ w ref ref_fai bam bai ci cores b e,
      w.dockerErr 0 = none → w.dockerErr 1 = some e →
      (run_strelka w ref ref_fai bam bai ci cores b initState).2 = Except.error e ∧
      (run_strelka w ref ref_fai bam bai ci cores b initState).1.nextFileId = 0 ∧
      (run_strelka w ref ref_fai bam bai ci cores b initState).1.dockerCalls = 2) ∧
    -- run_manta: both sites
    (∀ w ref ref_fai bam bai cores b e,
      w.dockerErr 0 = some e →
      (run_manta w ref ref_fai bam bai cores b initState).2 = Except.error e ∧
      (run_manta w ref ref_fai bam bai cores b initState).1.nextFileId = 0 ∧
      (run_manta w ref ref_fai bam bai cores b initState).1.dockerCalls = 1) ∧
    (∀ w ref ref_fai bam bai cores b e,
      w.dockerErr 0 = none → w.dockerErr 1 = some e →
      (run_manta w ref ref_fai bam bai cores b initState).2 = Except.error e ∧
      (run_manta w ref ref_fai bam bai cores b initState).1.nextFileId = 0 ∧
      (run_manta w ref ref_fai bam bai cores b initState).1.dockerCalls = 2) ∧
    -- run_samtools_mpileup
    (∀ w ref ref_fai bam bai b e,
      w.dockerErr 0 = some e →
      (run_samtools_mpileup w ref ref_fai bam bai b initState).2 = Except.error e ∧
      (run_samtools_mpileup w ref ref_fai bam bai b initState).1.nextFileId = 0 ∧
      (run_samtools_mpileup w ref ref_fai bam bai b initState).1.dockerCalls = 1) ∧
    -- run_bcftools_call
    (∀ w vcf_gz cores b e,
      w.dockerErr 0 = some e →
      (run_bcftools_call w vcf_gz cores b initState).2 = Except.error e ∧
      (run_bcftools_call w vcf_gz cores b initState).1.nextFileId = 0 ∧
      (run_bcftools_call w vcf_gz cores b initState).1.dockerCalls = 1) ∧
    -- run_gatk3_haplotype_caller
    (∀ w ref ref_fai ref_dict bam bai cores memory et ct b e,
      w.dockerErr 0 = some e →
      (run_gatk3_haplotype_caller w ref ref_fai ref_dict bam bai cores memory et ct b
        initState).2 = Except.error e ∧
      (run_gatk3_haplotype_caller w ref ref_fai ref_dict bam bai cores memory et ct b
        initState).1.nextFileId = 0 ∧
      (run_gatk3_haplotype_caller w ref ref_fai ref_dict bam bai cores memory et ct b
        initState).1.dockerCalls = 1) ∧
    -- run_bwa_index
    (∀ w ref_id e,
      w.dockerErr 0 = some e →
      (run_bwa_index w ref_id initState).2 = Except.error e ∧
      (run_bwa_index w ref_id initState).1.nextFileId = 0 ∧
      (run_bwa_index w ref_id initState).1.dockerCalls = 1) ∧
    -- run_samtools_faidx
    (∀ w ref_id e,
      w.dockerErr 0 = some e →
      (run_samtools_faidx w ref_id initState).2 = Except.error e ∧
      (run_samtools_faidx w ref_id initState).1.nextFileId = 0 ∧
      (run_samtools_faidx w ref_id initState).1.dockerCalls = 1) ∧
    -- run_bowtie2_index
    (∀ w ref_id e,
      w.dockerErr 0 = some e →
      (run_bowtie2_index w ref_id initState).2 = Except.error e ∧
      (run_bowtie2_index w ref_id initState).1.nextFileId = 0 ∧
      (run_bowtie2_index w ref_id initState).1.dockerCalls = 1) ∧
    -- run_snap_index
    (∀ w ref_id e,
      w.dockerErr 0 = some e →
      (run_snap_index w ref_id initState).2 = Except.error e ∧
      (run_snap_index w ref_id initState).1.nextFileId = 0 ∧
      (run_snap_index w ref_id initState).1.dockerCalls = 1) ∧
    -- run_soap3_index: both sites
    (∀ w ref bwa_indices e,
      w.dockerErr 0 = some e →
      (run_soap3_index w ref bwa_indices initState).2 = Except.error e ∧
      (run_soap3_index w ref bwa_indices initState).1.nextFileId = 0 ∧
      (run_soap3_index w ref bwa_indices initState).1.dockerCalls = 1) ∧
    (∀ w ref bwa_indices e,
      w.dockerErr 0 = none → w.dockerErr 1 = some e →
      (run_soap3_index w ref bwa_indices initState).2 = Except.error e ∧
      (run_soap3_index w ref bwa_indices initState).1.nextFileId = 0 ∧
      (run_soap3_index w ref bwa_indices initState).1.dockerCalls = 2) := by
  refine ⟨?_, ?_, ?_, ?_, ?_, ?_, ?_, ?_, ?_, ?_, ?_, ?_, ?_, ?_, ?_, ?_, ?_, ?_,
          ?_, ?_, ?_, ?_, ?_, ?_, ?_, ?_, ?_⟩
  · intro w m src dst container mem ov ps e hp hd
    refine ⟨?_, ?_, ?_⟩ <;>
      simp [call_conductor, M.bind_app, initState, M.ofExcept, M.pure, timeNow, dockerCall,
            log_container_execution, hp, hd]
  · intro w m src dst container mem ov ps hp hd
    simp [call_conductor, M.bind_app, initState, M.ofExcept, M.pure, timeNow, dockerCall,
          log_container_execution, hp, hd]
  · intro w m args container mem ov rl ps e hp hd
    refine ⟨?_, ?_, ?_⟩ <;>
      simp [call_adam, M.bind_app, initState, M.ofExcept, M.pure, timeNow, dockerCall,
            log_container_execution, hp, hd]
  · intro w m args container mem ov rl path e hp
    refine ⟨?_, ?_, ?_⟩ <;>
      simp [call_adam, M.bind_app, initState, M.ofExcept, M.pure, checkCall, hp]
  · intro w m args container mem ov rl ps e hp hd
    refine ⟨?_, ?_, ?_⟩ <;>
      simp [call_avocado, M.bind_app, initState, M.ofExcept, M.pure, timeNow, dockerCall,
            log_container_execution, hp, hd]
  · intro w m args container mem ov rl ps e hp hd
    refine ⟨?_, ?_, ?_⟩ <;>
      simp [call_cannoli, M.bind_app, initState, M.ofExcept, M.pure, timeNow, dockerCall,
            log_container_execution, hp, hd]
  · intro w ref ref_fai bam bai cores chunksize b e hd
    by_cases hc : 1 < cores ∧ chunksize.getD 0 ≠ 0 <;>
      refine ⟨?_, ?_, ?_⟩ <;>
        simp [run_freebayes, run_freebayes_core, M.bind_app, initState, M.pure, timeNow,
              dockerCall, getLocalTempDir, readInputs_app, log_runtime, hc, hd]
  · intro w ref ref_fai bam bai cores chunksize b e hc1 hc2 hd0 hd1
    refine ⟨?_, ?_, ?_⟩ <;>
      simp [run_freebayes, run_freebayes_core, M.bind_app, initState, M.pure, timeNow,
            dockerCall, getLocalTempDir, readInputs_app, log_runtime, hc1, hc2,
            hd0, hd1]
  · intro w ref ref_fai bam bai cores chunksize b hd0 hd1
    by_cases hc : 1 < cores ∧ chunksize.getD 0 ≠ 0 <;>
      cases b <;>
        refine ⟨?_, ?_, ?_⟩ <;>
          simp [run_freebayes, run_freebayes_core, M.bind_app, initState, M.pure,
                timeNow, dockerCall, getLocalTempDir, readInputs_app,
                writeGlobalFile, log_runtime, hc, hd0, hd1]
  · intro w ref ref_fai bam bai cores assemble b e hd
    refine ⟨?_, ?_, ?_⟩ <;>
      simp [run_platypus, run_platypus_core, M.bind_app, initState, M.pure, timeNow,
            dockerCall, getLocalTempDir, readInputs_app, log_runtime, hd]
  · intro w ref gi bam dbsnp sn b e hd
    refine ⟨?_, ?_, ?_⟩ <;>
      simp [run_16gt, run_16gt_core, M.bind_app, initState, M.pure, timeNow, dockerCall,
            getLocalTempDir, readInputs_app, log_runtime, hd]
  · intro w ref gi bam dbsnp sn b e hd0 hd1
    refine ⟨?_, ?_, ?_⟩ <;>
      simp [run_16gt, run_16gt_core, M.bind_app, initState, M.pure, timeNow, dockerCall,
            getLocalTempDir, readInputs_app, log_runtime, hd0, hd1]
  · intro w ref gi bam dbsnp sn b e hd0 hd1 hd2
    refine ⟨?_, ?_, ?_⟩ <;>
      simp [run_16gt, run_16gt_core, M.bind_app, initState, M.pure, timeNow, dockerCall,
            getLocalTempDir, readInputs_app, log_runtime, hd0, hd1, hd2]
  · intro w ref gi bam dbsnp sn b e hd0 hd1 hd2 hd3
    refine ⟨?_, ?_, ?_⟩ <;>
      simp [run_16gt, run_16gt_core, M.bind_app, initState, M.pure, timeNow, dockerCall,
            getLocalTempDir, readInputs_app, log_runtime, hd0, hd1, hd2, hd3]
  · intro w ref ref_fai bam bai ci cores b e hd
    refine ⟨?_, ?_, ?_⟩ <;>
      simp [run_strelka, run_strelka_core, M.bind_app, initState, M.pure, timeNow, dockerCall,
            getLocalTempDir, readInputs_app, log_runtime, hd]
  · intro w ref ref_fai bam bai ci cores b e hd0 hd1
    refine ⟨?_, ?_, ?_⟩ <;>
      simp [run_strelka, run_strelka_core, M.bind_app, initState, M.pure, timeNow, dockerCall,
            getLocalTempDir, readInputs_app, log_runtime, hd0, hd1]
  · intro w ref ref_fai bam bai cores b e hd
    refine ⟨?_, ?_, ?_⟩ <;>
      simp [run_manta, run_manta_core, M.bind_app, initState, M.pure, timeNow, dockerCall,
            getLocalTempDir, readInputs_app, log_runtime, hd]
  · intro w ref ref_fai bam bai cores b e hd0 hd1
    refine ⟨?_, ?_, ?_⟩ <;>
      simp [run_manta, run_manta_core, M.bind_app, initState, M.pure, timeNow, dockerCall,
            getLocalTempDir, readInputs_app, log_runtime, hd0, hd1]
  · intro w ref ref_fai bam bai b e hd
    refine ⟨?_, ?_, ?_⟩ <;>
      simp [run_samtools_mpileup, run_samtools_mpileup_core, M.bind_app, initState, M.pure,
            timeNow, dockerCall, getLocalTempDir, readInputs_app, log_runtime, hd]
  · intro w vcf_gz cores b e hd
    refine ⟨?_, ?_, ?_⟩ <;>
      simp [run_bcftools_call, run_bcftools_call_core, M.bind_app, initState, M.pure, timeNow,
            dockerCall, getLocalTempDir, readGlobalFile, log_runtime, hd]
  · intro w ref ref_fai ref_dict bam bai cores memory et ct b e hd
    refine ⟨?_, ?_, ?_⟩ <;>
      simp [run_gatk3_haplotype_caller, run_gatk3_haplotype_caller_core, M.bind_app, initState,
            M.pure, timeNow, dockerCall, getLocalTempDir, readInputs_app,
            log_runtime, hd]
  · intro w ref_id e hd
    refine ⟨?_, ?_, ?_⟩ <;>
      simp [run_bwa_index, M.bind_app, initState, M.pure, dockerCall, getLocalTempDir,
            readGlobalFile, hd]
  · intro w ref_id e hd
    refine ⟨?_, ?_, ?_⟩ <;>
      simp [run_samtools_faidx, M.bind_app, initState, M.pure, dockerCall, getLocalTempDir,
            readGlobalFile, hd]
  · intro w ref_id e hd
    refine ⟨?_, ?_, ?_⟩ <;>
      simp [run_bowtie2_index, M.bind_app, initState, M.pure, dockerCall, getLocalTempDir,
            readGlobalFile, hd]
  · intro w ref_id e hd
    refine ⟨?_, ?_, ?_⟩ <;>
      simp [run_snap_index, M.bind_app, initState, M.pure, dockerCall, getLocalTempDir,
            readGlobalFile, hd]
  · intro w ref bwa_indices e hd
    refine ⟨?_, ?_, ?_⟩ <;>
      simp [run_soap3_index, M.bind_app, initState, M.pure, dockerCall, getLocalTempDir,
            readGlobalFile, readInputs_app, hd]
  · intro w ref bwa_indices e hd0 hd1
    refine ⟨?_, ?_, ?_⟩ <;>
      simp [run_soap3_index, M.bind_app, initState, M.pure, dockerCall, getLocalTempDir,
            readGlobalFile, readInputs_app, hd0, hd1]

/-- Witness for C8: in the all-failing world, a concrete
`call_conductor` invocation fails with the container runtime's error
after exactly one attempt and without creating a handle. -/
theorem docker_failure_propagation_witness :
    (call_conductor failWorld (MasterAddress.init "h") "s" "d" "c" (some 4) none
      initState).2 = Except.error "docker failure" ∧
    (call_conductor failWorld (MasterAddress.init "h") "s" "d" "c" (some 4) none
      initState).1.nextFileId = 0 ∧
    (call_conductor failWorld (MasterAddress.init "h") "s" "d" "c" (some 4) none
      initState).1.dockerCalls = 1 :=
  docker_failure_propagation.1 failWorld (MasterAddress.init "h") "s" "d" "c"
    (some 4) none _ "docker failure" rfl rfl

end ToilLib
